import Mathlib

/-!
Verification development for the `tanstack-sveltekit-bluesky` repository.

The repository is declarative UI glue around a paginated query library and a
table library.  The configuration that the repository itself contains
(query keys, `getNextPageParam`, `select` transforms, `staleTime` values,
column definitions, render expressions) is embedded directly from the source
files.  The behavior of the external query/table libraries, which the spec
describes as the `PaginatedQueryCoordinator` contract, is modelled from the
spec where indicated.
-/

/-- Profile shape consumed by the program (spec section 6):
handle, optional displayName, optional avatar, optional description,
plus the createdAt field accessed by the followers table column. -/
structure Profile where
  handle : String
  displayName : Option String
  avatar : Option String
  description : Option String
  createdAt : String
deriving DecidableEq, Repr

/-- Record of a post: the program accesses `post.record.text`. -/
structure PostRecord where
  text : String
deriving DecidableEq, Repr

/-- Post shape consumed by the program: author, record with text,
optional likeCount. -/
structure Post where
  author : Profile
  record : PostRecord
  likeCount : Option Nat
deriving DecidableEq, Repr

/-- Feed item wrapping a post; `reason` present marks a repost and
`reply` present marks a reply (source: `+page.svelte` author feed filter). -/
structure FeedViewPost where
  post : Post
  reason : Option Unit
  reply : Option Unit
deriving DecidableEq, Repr

/-- Page returned by `searchActors`: `{ actors, cursor }`
(source: `search/+page.svelte`, queryFn result). -/
structure ActorsPage where
  actors : List Profile
  cursor : Option String
deriving DecidableEq, Repr

/-- Page returned by `getAuthorFeed` and `getFeed`: `{ feed, cursor }`. -/
structure FeedPage where
  feed : List FeedViewPost
  cursor : Option String
deriving DecidableEq, Repr

/-- Page returned by `getFollowers`: `{ followers, cursor }`. -/
structure FollowersPage where
  followers : List Profile
  cursor : Option String
deriving DecidableEq, Repr

/-- Translated from source (`search/+page.svelte` line 20):
`getNextPageParam: (lastPage) => lastPage.cursor`. -/
def searchGetNextPageParam (lastPage : ActorsPage) : Option String :=
  lastPage.cursor

/-- Translated from source (author feed query):
`getNextPageParam: (lastPage) => lastPage.cursor`. -/
def authorFeedGetNextPageParam (lastPage : FeedPage) : Option String :=
  lastPage.cursor

/-- Translated from source (following query):
`getNextPageParam: (lastPage) => lastPage.cursor`. -/
def followingGetNextPageParam (lastPage : FollowersPage) : Option String :=
  lastPage.cursor

/-- Translated from source (`search/+page.svelte` line 13): the query key of
the actor-search query, `["searchActors", debouncedSearchTerm.current]`. -/
def searchQueryKey (term : String) : List String :=
  ["searchActors", term]

/-- Modelled from the spec: the state the query library keeps for one
infinite query — the accumulated pages plus the cursor argument of the
fetch currently in flight (`none` when no fetch is in flight).  The
library implementation is external to the repository. -/
structure ExecState (P : Type) where
  pages : List P
  inFlight : Option (Option String)
deriving DecidableEq, Repr

/-- Modelled from the spec: the `isFetchingNextPage` flag exposed by the
query library — true exactly while a next-page fetch is in flight. -/
def isFetchingNextPage {P : Type} (s : ExecState P) : Bool :=
  s.inFlight.isSome

/-- Modelled from the spec: `hasNextPage` is derived from the last page's
cursor — true exactly when the last page's cursor is present. -/
def hasNextPage {P : Type} (getNext : P → Option String) (s : ExecState P) : Bool :=
  match s.pages.getLast? with
  | none => false
  | some last => (getNext last).isSome

/-- Modelled from the spec: `fetchNextPage()` of the external query library.
A call is a no-op while a fetch for the key is already in flight; otherwise,
when the last page's cursor is present, it starts a fetch whose cursor
argument is `getNext lastPage` (the program configures
`getNextPageParam = (lastPage) => lastPage.cursor`); when there is no next
page it is a no-op. -/
def fetchNextPage {P : Type} (getNext : P → Option String) (s : ExecState P) : ExecState P :=
  if isFetchingNextPage s then s
  else
    match s.pages.getLast? with
    | none => s
    | some last =>
      match getNext last with
      | none => s
      | some c => { s with inFlight := some (some c) }

/-- Modelled from the spec: completion of an in-flight fetch appends the
fetched page to the page list and clears the in-flight flag; a completion
with no fetch in flight changes nothing. -/
def completeFetch {P : Type} (result : P) (s : ExecState P) : ExecState P :=
  match s.inFlight with
  | none => s
  | some _ => { pages := s.pages ++ [result], inFlight := none }

/-- Translated from source (`search/+page.svelte` lines 48-59 and the two
load-more buttons of the other pages): the load-next-page control is
rendered with `disabled={$query.isFetchingNextPage}`. -/
def loadMoreDisabled {P : Type} (s : ExecState P) : Bool :=
  isFetchingNextPage s

/-- C1: each non-in-flight call to fetchNextPage starts a fetch whose cursor
argument is the last page's cursor when that cursor is present, appending
exactly the fetched page on completion; when the last page's cursor is
absent (hasNextPage false) the call is a no-op and no page is ever
appended. -/
theorem fetchNextPage_uses_last_cursor {P : Type}
    (getNext : P → Option String) (s : ExecState P) (last : P)
    (hflight : isFetchingNextPage s = false)
    (hlast : s.pages.getLast? = some last) :
    (hasNextPage getNext s = true →
      (fetchNextPage getNext s).inFlight = some (getNext last) ∧
      ∀ pg : P, (completeFetch pg (fetchNextPage getNext s)).pages = s.pages ++ [pg]) ∧
    (hasNextPage getNext s = false →
      fetchNextPage getNext s = s ∧
      ∀ pg : P, (completeFetch pg (fetchNextPage getNext s)).pages = s.pages) := by
  have hnone : s.inFlight = none := by
    unfold isFetchingNextPage at hflight
    cases hi : s.inFlight with
    | none => rfl
    | some v => rw [hi] at hflight; simp at hflight
  unfold hasNextPage fetchNextPage
  rw [hlast, hflight]
  simp only [if_false, Bool.false_eq_true]
  cases hc : getNext last with
  | none =>
    constructor
    · intro h
      simp at h
    · intro _
      refine ⟨rfl, ?_⟩
      intro pg
      unfold completeFetch
      rw [hnone]
  | some c =>
    constructor
    · intro _
      refine ⟨rfl, ?_⟩
      intro pg
      unfold completeFetch
      rfl
    · intro h
      simp at h

/-- Witness for C1 at a concrete actor-search state: one fetched page whose
cursor is present. -/
theorem fetchNextPage_uses_last_cursor_witness :
    isFetchingNextPage
        (ExecState.mk [ActorsPage.mk [] (some "c1")] none) = false ∧
    (ExecState.mk [ActorsPage.mk [] (some "c1")] none).pages.getLast?
        = some (ActorsPage.mk [] (some "c1")) ∧
    ((hasNextPage searchGetNextPageParam
        (ExecState.mk [ActorsPage.mk [] (some "c1")] none) = true →
      (fetchNextPage searchGetNextPageParam
        (ExecState.mk [ActorsPage.mk [] (some "c1")] none)).inFlight
          = some (searchGetNextPageParam (ActorsPage.mk [] (some "c1"))) ∧
      ∀ pg : ActorsPage,
        (completeFetch pg (fetchNextPage searchGetNextPageParam
          (ExecState.mk [ActorsPage.mk [] (some "c1")] none))).pages
          = [ActorsPage.mk [] (some "c1")] ++ [pg]) ∧
    (hasNextPage searchGetNextPageParam
        (ExecState.mk [ActorsPage.mk [] (some "c1")] none) = false →
      fetchNextPage searchGetNextPageParam
        (ExecState.mk [ActorsPage.mk [] (some "c1")] none)
        = ExecState.mk [ActorsPage.mk [] (some "c1")] none ∧
      ∀ pg : ActorsPage,
        (completeFetch pg (fetchNextPage searchGetNextPageParam
          (ExecState.mk [ActorsPage.mk [] (some "c1")] none))).pages
          = [ActorsPage.mk [] (some "c1")])) :=
  ⟨rfl, rfl,
    fetchNextPage_uses_last_cursor searchGetNextPageParam
      (ExecState.mk [ActorsPage.mk [] (some "c1")] none)
      (ActorsPage.mk [] (some "c1")) rfl rfl⟩

/-- C8: while a fetch for a key is in flight, calling fetchNextPage performs
no additional fetch (the state, including the in-flight record, is
unchanged), and the load-next-page control is disabled. -/
theorem fetchNextPage_in_flight_noop {P : Type}
    (getNext : P → Option String) (s : ExecState P)
    (h : isFetchingNextPage s = true) :
    fetchNextPage getNext s = s ∧ loadMoreDisabled s = true := by
  constructor
  · unfold fetchNextPage
    rw [h]
    simp
  · unfold loadMoreDisabled
    exact h

/-- Witness for C8 at a concrete in-flight actor-search state. -/
theorem fetchNextPage_in_flight_noop_witness :
    isFetchingNextPage
        (ExecState.mk [ActorsPage.mk [] (some "c1")] (some (some "c1"))) = true ∧
    (fetchNextPage searchGetNextPageParam
        (ExecState.mk [ActorsPage.mk [] (some "c1")] (some (some "c1")))
      = ExecState.mk [ActorsPage.mk [] (some "c1")] (some (some "c1")) ∧
     loadMoreDisabled
        (ExecState.mk [ActorsPage.mk [] (some "c1")] (some (some "c1"))) = true) :=
  ⟨rfl,
    fetchNextPage_in_flight_noop searchGetNextPageParam
      (ExecState.mk [ActorsPage.mk [] (some "c1")] (some (some "c1"))) rfl⟩


/-- Translated from source (`search/+page.svelte` line 14): the actor-search
query is configured with `staleTime: 30000` milliseconds; the profile,
author-feed and following queries use the same value. -/
def staleTimeMs : Nat := 30000

/-- Cache entry of the external query library: the cached data together
with the time it was last updated. -/
structure CacheEntry (T : Type) where
  data : T
  updatedAt : Nat
deriving DecidableEq, Repr

/-- Query cache keyed by query key, shared across observers. -/
def QueryCache (K T : Type) : Type := List (K × CacheEntry T)

/-- Lookup of the cache entry stored under a key. -/
def lookupEntry {K T : Type} [DecidableEq K] (c : QueryCache K T) (k : K) :
    Option (CacheEntry T) :=
  (c.find? (fun e => decide (e.1 = k))).map (fun e => e.2)

/-- Replacement of the entry stored under a key, leaving other keys alone. -/
def updateEntry {K T : Type} [DecidableEq K] (k : K) (e : CacheEntry T)
    (c : QueryCache K T) : QueryCache K T :=
  c.map (fun p => if p.1 = k then (k, e) else p)

/-- Modelled from the spec: re-observation of a query key by the external
query library.  A cached result younger than `staleTime` is served from
cache with no fetch; an older cached result is still served while a
background re-fetch is issued (stale-while-revalidate); a missing entry
is fetched.  The returned Boolean records whether a network call was
issued. -/
def observeQuery {K T : Type} [DecidableEq K]
    (fetch : K → T) (staleTime now : Nat) (k : K) (c : QueryCache K T) :
    T × Bool × QueryCache K T :=
  match lookupEntry c k with
  | none =>
    let d := fetch k
    (d, true, (k, CacheEntry.mk d now) :: c)
  | some e =>
    if now - e.updatedAt < staleTime then
      (e.data, false, c)
    else
      (e.data, true, updateEntry k (CacheEntry.mk (fetch k) now) c)

theorem lookupEntry_cons_ne {K T : Type} [DecidableEq K]
    (k k2 : K) (e : CacheEntry T) (c : QueryCache K T) (h : ¬ k2 = k) :
    lookupEntry ((k2, e) :: c) k = lookupEntry c k := by
  unfold lookupEntry
  have : (fun p : K × CacheEntry T => decide (p.1 = k)) (k2, e) = false := by
    simp [h]
  rw [show ((k2, e) :: c : QueryCache K T).find? (fun p => decide (p.1 = k))
        = (c : List (K × CacheEntry T)).find? (fun p => decide (p.1 = k)) from by
      rw [List.find?_cons_of_neg]
      simp [h]]

theorem lookupEntry_updateEntry_ne {K T : Type} [DecidableEq K]
    (k k2 : K) (e : CacheEntry T) (c : QueryCache K T) (h : ¬ k = k2) :
    lookupEntry (updateEntry k2 e c) k = lookupEntry c k := by
  induction c with
  | nil => rfl
  | cons hd tl ih =>
    unfold updateEntry at ih ⊢
    rw [List.map_cons]
    by_cases hhd : hd.1 = k2
    · rw [if_pos hhd]
      have h1 : ¬ k2 = k := fun hh => h hh.symm
      have h2 : ¬ hd.1 = k := by rw [hhd]; exact h1
      rw [lookupEntry_cons_ne k k2 e _ h1]
      unfold lookupEntry
      rw [List.find?_cons_of_neg]
      · exact ih
      · simp [h2]
    · rw [if_neg hhd]
      by_cases h2 : hd.1 = k
      · unfold lookupEntry
        rw [List.find?_cons_of_pos, List.find?_cons_of_pos] <;> simp [h2]
      · unfold lookupEntry
        rw [List.find?_cons_of_neg, List.find?_cons_of_neg]
        · exact ih
        · simp [h2]
        · simp [h2]

theorem lookupEntry_observe_other {K T : Type} [DecidableEq K]
    (fetch : K → T) (staleTime now : Nat) (k k2 : K) (c : QueryCache K T)
    (hne : k ≠ k2) :
    lookupEntry (observeQuery fetch staleTime now k2 c).2.2 k = lookupEntry c k := by
  unfold observeQuery
  cases hl : lookupEntry c k2 with
  | none =>
    exact lookupEntry_cons_ne k k2 _ c (fun hh => hne hh.symm)
  | some e =>
    dsimp only
    by_cases hst : now - e.updatedAt < staleTime
    · rw [if_pos hst]
    · rw [if_neg hst]
      exact lookupEntry_updateEntry_ne k k2 _ c hne

theorem observe_fresh {K T : Type} [DecidableEq K]
    (fetch : K → T) (staleTime now : Nat) (k : K) (c : QueryCache K T)
    (e : CacheEntry T)
    (hent : lookupEntry c k = some e) (hfresh : now - e.updatedAt < staleTime) :
    (observeQuery fetch staleTime now k c).1 = e.data ∧
    (observeQuery fetch staleTime now k c).2.1 = false := by
  unfold observeQuery
  rw [hent]
  dsimp only
  rw [if_pos hfresh]
  exact ⟨rfl, rfl⟩

theorem observe_stale {K T : Type} [DecidableEq K]
    (fetch : K → T) (staleTime now : Nat) (k : K) (c : QueryCache K T)
    (e : CacheEntry T)
    (hent : lookupEntry c k = some e) (hstale : ¬ now - e.updatedAt < staleTime) :
    (observeQuery fetch staleTime now k c).1 = e.data ∧
    (observeQuery fetch staleTime now k c).2.1 = true := by
  unfold observeQuery
  rw [hent]
  dsimp only
  rw [if_neg hstale]
  exact ⟨rfl, rfl⟩

/-- C4: with the program's 30000 ms staleTime, a cached entry for key k1
younger than staleTime is served from cache with no network call when k1 is
re-observed, also after an intervening observation of a different key k2;
an entry at least staleTime old still serves the cached data while a
background re-fetch is issued. -/
theorem staleTime_cache_behavior {K T : Type} [DecidableEq K]
    (fetch : K → T) (c : QueryCache K T) (k1 k2 : K) (e : CacheEntry T)
    (hne : k1 ≠ k2)
    (hent : lookupEntry c k1 = some e) :
    (∀ t1 t2 : Nat, t2 - e.updatedAt < staleTimeMs →
      (observeQuery fetch staleTimeMs t2 k1
        (observeQuery fetch staleTimeMs t1 k2 c).2.2).1 = e.data ∧
      (observeQuery fetch staleTimeMs t2 k1
        (observeQuery fetch staleTimeMs t1 k2 c).2.2).2.1 = false) ∧
    (∀ t : Nat, staleTimeMs ≤ t - e.updatedAt →
      (observeQuery fetch staleTimeMs t k1 c).1 = e.data ∧
      (observeQuery fetch staleTimeMs t k1 c).2.1 = true) := by
  constructor
  · intro t1 t2 hfresh
    have hpres := lookupEntry_observe_other fetch staleTimeMs t1 k1 k2 c hne
    rw [hent] at hpres
    exact observe_fresh fetch staleTimeMs t2 k1 _ e hpres hfresh
  · intro t hstale
    exact observe_stale fetch staleTimeMs t k1 c e hent (Nat.not_lt.mpr hstale)

/-- Witness for C4 at concrete keys, with the actor-search query keys of the
source: k1 is the key for term a, k2 for term b, cached data is a profile
list, entry updated at time 0. -/
theorem staleTime_cache_behavior_witness :
    (searchQueryKey "a" ≠ searchQueryKey "b") ∧
    lookupEntry
        [(searchQueryKey "a", CacheEntry.mk ([] : List Profile) 0)]
        (searchQueryKey "a")
      = some (CacheEntry.mk ([] : List Profile) 0) ∧
    ((∀ t1 t2 : Nat,
      t2 - (CacheEntry.mk ([] : List Profile) 0).updatedAt < staleTimeMs →
      (observeQuery (fun _ => ([] : List Profile)) staleTimeMs t2 (searchQueryKey "a")
        (observeQuery (fun _ => ([] : List Profile)) staleTimeMs t1 (searchQueryKey "b")
          [(searchQueryKey "a", CacheEntry.mk ([] : List Profile) 0)]).2.2).1
        = (CacheEntry.mk ([] : List Profile) 0).data ∧
      (observeQuery (fun _ => ([] : List Profile)) staleTimeMs t2 (searchQueryKey "a")
        (observeQuery (fun _ => ([] : List Profile)) staleTimeMs t1 (searchQueryKey "b")
          [(searchQueryKey "a", CacheEntry.mk ([] : List Profile) 0)]).2.2).2.1
        = false) ∧
    (∀ t : Nat,
      staleTimeMs ≤ t - (CacheEntry.mk ([] : List Profile) 0).updatedAt →
      (observeQuery (fun _ => ([] : List Profile)) staleTimeMs t (searchQueryKey "a")
        [(searchQueryKey "a", CacheEntry.mk ([] : List Profile) 0)]).1
        = (CacheEntry.mk ([] : List Profile) 0).data ∧
      (observeQuery (fun _ => ([] : List Profile)) staleTimeMs t (searchQueryKey "a")
        [(searchQueryKey "a", CacheEntry.mk ([] : List Profile) 0)]).2.1
        = true)) :=
  ⟨by decide, by decide,
    staleTime_cache_behavior (fun _ => ([] : List Profile))
      [(searchQueryKey "a", CacheEntry.mk ([] : List Profile) 0)]
      (searchQueryKey "a") (searchQueryKey "b")
      (CacheEntry.mk ([] : List Profile) 0)
      (by decide) (by decide)⟩

/-- Modelled from the spec: the Debounced value source used by the program
(`new Debounced(() => searchTerm, 500)`), whose implementation is the
external runed library.  Inputs are timestamped raw edits with strictly
increasing times; an edit at time t is emitted at time t + D exactly when
no further edit arrives before t + D.  With D = 0 every edit is emitted
(pass-through). -/
def debounceEmits (D : Nat) : List (Nat × String) → List (Nat × String)
  | [] => []
  | (t, v) :: rest =>
    match rest with
    | [] => [(t + D, v)]
    | (t2, _) :: _ =>
      if t + D ≤ t2 then (t + D, v) :: debounceEmits D rest
      else debounceEmits D rest

/-- Burst of raw input edits: a non-empty timestamped sequence in which each
edit arrives strictly less than D ms after the previous one. -/
def isBurst (D : Nat) : List (Nat × String) → Bool
  | [] => false
  | [_] => true
  | a :: b :: rest => decide (b.1 < a.1 + D) && isBurst D (b :: rest)

/-- C5: a burst of raw edits (consecutive edits less than D ms apart) makes
the debounced value emit exactly once, with the last edited value, D ms
after the last edit; no intermediate value is emitted, and the committed
actor-search query key is the key of the final input value. -/
theorem debounce_burst_emits_last (D : Nat) (inputs : List (Nat × String))
    (hburst : isBurst D inputs = true) :
    ∃ t v, inputs.getLast? = some (t, v) ∧
      debounceEmits D inputs = [(t + D, v)] ∧
      (debounceEmits D inputs).map (fun e => searchQueryKey e.2)
        = [searchQueryKey v] := by
  induction inputs with
  | nil => simp [isBurst] at hburst
  | cons a rest ih =>
    cases rest with
    | nil =>
      refine ⟨a.1, a.2, ?_, ?_, ?_⟩
      · rfl
      · rfl
      · rfl
    | cons b rest2 =>
      have hlt : b.1 < a.1 + D := by
        unfold isBurst at hburst
        exact of_decide_eq_true (Bool.and_elim_left hburst)
      have htail : isBurst D (b :: rest2) = true := by
        unfold isBurst at hburst
        exact Bool.and_elim_right hburst
      obtain ⟨t, v, hlast, hemit, hkey⟩ := ih htail
      refine ⟨t, v, ?_, ?_, ?_⟩
      · rw [List.getLast?_cons_cons]
        exact hlast
      · show debounceEmits D ((a.1, a.2) :: (b.1, b.2) :: rest2) = [(t + D, v)]
        unfold debounceEmits
        dsimp only
        rw [if_neg (Nat.not_le.mpr hlt)]
        exact hemit
      · show (debounceEmits D ((a.1, a.2) :: (b.1, b.2) :: rest2)).map
            (fun e => searchQueryKey e.2) = [searchQueryKey v]
        unfold debounceEmits
        dsimp only
        rw [if_neg (Nat.not_le.mpr hlt)]
        exact hkey

/-- Witness for C5 at the program's 500 ms delay and a concrete burst of
three edits 100 ms apart. -/
theorem debounce_burst_emits_last_witness :
    isBurst 500 [(0, "z"), (100, "ze"), (200, "zeu")] = true ∧
    ∃ t v, ([(0, "z"), (100, "ze"), (200, "zeu")] : List (Nat × String)).getLast?
        = some (t, v) ∧
      debounceEmits 500 [(0, "z"), (100, "ze"), (200, "zeu")] = [(t + 500, v)] ∧
      (debounceEmits 500 [(0, "z"), (100, "ze"), (200, "zeu")]).map
        (fun e => searchQueryKey e.2) = [searchQueryKey v] :=
  ⟨by decide,
    debounce_burst_emits_last 500 [(0, "z"), (100, "ze"), (200, "zeu")] (by decide)⟩

/-- Character-list matching helper: the first list starts the second. -/
def charsStart : List Char → List Char → Bool
  | [], _ => true
  | _ :: _, [] => false
  | a :: as, b :: bs => decide (a = b) && charsStart as bs

/-- Character-list containment: the first list occurs contiguously in the
second. -/
def charsContain (sub : List Char) : List Char → Bool
  | [] => charsStart sub []
  | c :: rest => charsStart sub (c :: rest) || charsContain sub rest

/-- Modelled from the spec: the includesString filter function named by the
column definitions, whose implementation is in the external table library —
a row value matches when it contains the filter term as a case-sensitive
substring. -/
def includesString (cellValue filterValue : String) : Bool :=
  charsContain filterValue.data cellValue.data

/-- Column description (spec section 4.3 ColumnSpec): id, stringified
accessor, whether the column takes part in the global filter, and whether
it can sort. -/
structure ColumnSpec (T : Type) where
  id : String
  accessor : T → String
  filterable : Bool
  sortable : Bool

/-- Translated from source (following table handle column): accessor
`handle`, filterFn includesString, sorting enabled by default. -/
def handleColumn : ColumnSpec Profile :=
  ColumnSpec.mk "handle" (fun p => p.handle) true true

/-- Translated from source (following table displayName column): rendered
through a custom cell component, `enableSorting: false`, no filterFn. -/
def displayNameColumn : ColumnSpec Profile :=
  ColumnSpec.mk "displayName" (fun p => (p.displayName).getD "") false false

/-- Translated from source (following table createdAt column): accessor
`createdAt`, sortingFn datetime, no filterFn. -/
def createdAtColumn : ColumnSpec Profile :=
  ColumnSpec.mk "createdAt" (fun p => p.createdAt) false true

/-- Translated from source: the three columns of the followers table. -/
def profileColumns : List (ColumnSpec Profile) :=
  [handleColumn, displayNameColumn, createdAtColumn]

/-- Translated from source (author feed table Likes column): accessor
`post.likeCount`, sortingFn alphanumeric, no filterFn. -/
def likesColumn : ColumnSpec FeedViewPost :=
  ColumnSpec.mk "post.likeCount"
    (fun fp => match fp.post.likeCount with
      | none => ""
      | some n => toString n)
    false true

/-- Translated from source (author feed table Text column): accessor
`post.record.text`, filterFn includesString, `enableSorting: false`. -/
def textColumn : ColumnSpec FeedViewPost :=
  ColumnSpec.mk "post.record.text" (fun fp => fp.post.record.text) true false

/-- Translated from source: the two columns of the author feed table. -/
def postColumns : List (ColumnSpec FeedViewPost) :=
  [likesColumn, textColumn]

/-- Modelled from the spec: a row is retained by the global filter when ANY
filterable column's stringified accessed value matches. -/
def rowRetained {T : Type} (cols : List (ColumnSpec T)) (gf : String)
    (r : T) : Bool :=
  cols.any (fun c => c.filterable && includesString (c.accessor r) gf)

/-- Modelled from the spec: the filtered row model of the external table
library — an empty global filter retains every row, a non-empty one keeps
the rows retained by some filterable column. -/
def filteredRows {T : Type} (cols : List (ColumnSpec T)) (gf : String)
    (rows : List T) : List T :=
  if gf = "" then rows else rows.filter (rowRetained cols gf)

/-- C2: for every table row and non-empty global filter, the row is kept in
the displayed view exactly when some filterable column's stringified value
contains the filter as a case-sensitive substring; in particular a row all
of whose filterable values match only with differing letter case is
excluded. -/
theorem globalFilter_retained_iff {T : Type}
    (cols : List (ColumnSpec T)) (rows : List T) (gf : String) (r : T)
    (h : gf ≠ "") :
    r ∈ filteredRows cols gf rows ↔
      r ∈ rows ∧ ∃ c ∈ cols, c.filterable = true ∧
        includesString (c.accessor r) gf = true := by
  unfold filteredRows
  rw [if_neg h, List.mem_filter]
  unfold rowRetained
  rw [List.any_eq_true]
  constructor
  · rintro ⟨hr, c, hc, hcb⟩
    rw [Bool.and_eq_true] at hcb
    exact ⟨hr, c, hc, hcb.1, hcb.2⟩
  · rintro ⟨hr, c, hc, hfil, hinc⟩
    exact ⟨hr, c, hc, by rw [Bool.and_eq_true]; exact ⟨hfil, hinc⟩⟩

/-- Witness for C2 on the followers table columns: the row with handle
Zeu.dev and the filter term zeu, which matches only with differing case. -/
theorem globalFilter_retained_iff_witness :
    ("zeu" ≠ "") ∧
    (Profile.mk "Zeu.dev" none none none "" ∈
        filteredRows profileColumns "zeu"
          [Profile.mk "Zeu.dev" none none none ""] ↔
      Profile.mk "Zeu.dev" none none none "" ∈
          [Profile.mk "Zeu.dev" none none none ""] ∧
        ∃ c ∈ profileColumns, c.filterable = true ∧
          includesString (c.accessor (Profile.mk "Zeu.dev" none none none ""))
            "zeu" = true) :=
  ⟨by decide,
    globalFilter_retained_iff profileColumns
      [Profile.mk "Zeu.dev" none none none ""] "zeu"
      (Profile.mk "Zeu.dev" none none none "") (by decide)⟩

/-- Direction a column is currently sorted in. -/
inductive SortDirection
  | unsorted
  | ascending
  | descending
deriving DecidableEq, Repr

/-- Entry of the table's SortingState: a column id plus its descending
flag. -/
structure ColumnSort where
  id : String
  desc : Bool
deriving DecidableEq, Repr

/-- Modelled from the spec: getIsSorted of the external table library —
the direction recorded for the column in the SortingState. -/
def getIsSorted (sorting : List ColumnSort) (colId : String) : SortDirection :=
  match sorting.find? (fun e => decide (e.id = colId)) with
  | none => SortDirection.unsorted
  | some e => if e.desc then SortDirection.descending else SortDirection.ascending

/-- Modelled from the spec: the toggle applied by the header button's
getToggleSortingHandler in the external table library — repeated activation
cycles unsorted, ascending, descending, unsorted (single-column sort). -/
def toggleSorting (colId : String) (sorting : List ColumnSort) : List ColumnSort :=
  match getIsSorted sorting colId with
  | SortDirection.unsorted => [ColumnSort.mk colId false]
  | SortDirection.ascending => [ColumnSort.mk colId true]
  | SortDirection.descending => []

/-- Translated from source (header button): the button invokes the toggle
handler and is disabled unless the column can sort, so an activation only
toggles sortable columns. -/
def activateSortToggle {T : Type} (c : ColumnSpec T)
    (sorting : List ColumnSort) : List ColumnSort :=
  if c.sortable then toggleSorting c.id sorting else sorting

/-- C3: for every sortable column, three successive activations of its sort
toggle starting from the unsorted state cycle the direction through
unsorted, ascending, descending, and back to unsorted. -/
theorem sortToggle_cycle {T : Type} (c : ColumnSpec T)
    (h : c.sortable = true) :
    getIsSorted [] c.id = SortDirection.unsorted ∧
    getIsSorted (activateSortToggle c []) c.id = SortDirection.ascending ∧
    getIsSorted (activateSortToggle c (activateSortToggle c [])) c.id
      = SortDirection.descending ∧
    getIsSorted (activateSortToggle c (activateSortToggle c
      (activateSortToggle c []))) c.id = SortDirection.unsorted := by
  unfold activateSortToggle
  rw [h]
  simp only [if_true]
  unfold toggleSorting getIsSorted
  simp [List.find?]

/-- Witness for C3 at the numeric Likes column of the author feed table. -/
theorem sortToggle_cycle_witness :
    likesColumn.sortable = true ∧
    (getIsSorted [] likesColumn.id = SortDirection.unsorted ∧
    getIsSorted (activateSortToggle likesColumn []) likesColumn.id
      = SortDirection.ascending ∧
    getIsSorted (activateSortToggle likesColumn
      (activateSortToggle likesColumn [])) likesColumn.id
      = SortDirection.descending ∧
    getIsSorted (activateSortToggle likesColumn (activateSortToggle likesColumn
      (activateSortToggle likesColumn []))) likesColumn.id
      = SortDirection.unsorted) :=
  ⟨rfl, sortToggle_cycle likesColumn rfl⟩

/-- Translated from source (`search/+page.svelte` line 21): the select of the
actor-search query, `(data) => data.pages.map((page) => page.actors).flat()`. -/
def searchSelect (pages : List ActorsPage) : List Profile :=
  (pages.map (fun p => p.actors)).flatten

/-- Translated from source (following query select):
`(data) => data.pages.map((page) => page.followers).flat()`. -/
def followingSelect (pages : List FollowersPage) : List Profile :=
  (pages.map (fun p => p.followers)).flatten

/-- Translated from source (author feed query select):
`(data) => data.pages.map((page) => page.feed).flat()
  .filter((post) => !post.reason && !post.reply)`. -/
def authorFeedSelect (pages : List FeedPage) : List FeedViewPost :=
  ((pages.map (fun p => p.feed)).flatten).filter
    (fun post => post.reason.isNone && post.reply.isNone)

/-- Table state assembled by the source options object: the data rows
delivered by the query select plus the SortingState and the global
filter term. -/
structure TableState (T : Type) where
  data : List T
  sorting : List ColumnSort
  globalFilter : String

/-- Translated from source (setSorting): the updater is either a new
SortingState value or a function of the previous one, and only the sorting
field is replaced. -/
def setSorting {T : Type}
    (updater : List ColumnSort ⊕ (List ColumnSort → List ColumnSort))
    (ts : TableState T) : TableState T :=
  match updater with
  | Sum.inl s => TableState.mk ts.data s ts.globalFilter
  | Sum.inr f => TableState.mk ts.data (f ts.sorting) ts.globalFilter

/-- Translated from source (the effect running
`$table.setGlobalFilter(tableSearchTerm)`): only the global filter field is
replaced. -/
def setGlobalFilter {T : Type} (gf : String) (ts : TableState T) :
    TableState T :=
  TableState.mk ts.data ts.sorting gf

/-- C6: for pages fetched in order P1 then P2, the select transform flattens
them to P1 items followed by P2 items, for the actor-search and following
queries alike, and applying any sort update or filter term to the table
state leaves the underlying data rows unchanged. -/
theorem select_flatten_pages_in_order {T : Type}
    (P1 P2 : ActorsPage) (Q1 Q2 : FollowersPage) (ts : TableState T)
    (u : List ColumnSort ⊕ (List ColumnSort → List ColumnSort)) (gf : String) :
    searchSelect [P1, P2] = P1.actors ++ P2.actors ∧
    followingSelect [Q1, Q2] = Q1.followers ++ Q2.followers ∧
    (setSorting u ts).data = ts.data ∧
    (setGlobalFilter gf ts).data = ts.data := by
  refine ⟨?_, ?_, ?_, rfl⟩
  · unfold searchSelect
    simp
  · unfold followingSelect
    simp
  · unfold setSorting
    cases u with
    | inl s => rfl
    | inr f => rfl

/-- C7: the author-feed select retains exactly the flattened posts having
neither a reason field (repost marker) nor a reply field (reply marker);
every repost and every reply is excluded. -/
theorem authorFeedSelect_excludes_reposts_replies
    (pages : List FeedPage) (p : FeedViewPost) :
    p ∈ authorFeedSelect pages ↔
      p ∈ (pages.map (fun q => q.feed)).flatten ∧
        p.reason = none ∧ p.reply = none := by
  unfold authorFeedSelect
  rw [List.mem_filter, Bool.and_eq_true, Option.isNone_iff_eq_none,
    Option.isNone_iff_eq_none]

/-- Status of a query (spec data model): Idle, Loading, Success, or Error
carrying the user-visible message. -/
inductive QueryStatus
  | idle
  | loading
  | success
  | error (message : String)
deriving DecidableEq, Repr

/-- Entry the query library keeps per query key: the accumulated pages and
the status. -/
structure QueryEntry (P : Type) where
  pages : List P
  status : QueryStatus
deriving DecidableEq, Repr

/-- States of all queries, keyed by query key. -/
def QueryStates (K P : Type) : Type := List (K × QueryEntry P)

/-- Lookup of the entry stored for a query key. -/
def lookupQuery {K P : Type} [DecidableEq K] (c : QueryStates K P) (k : K) :
    Option (QueryEntry P) :=
  (c.find? (fun e => decide (e.1 = k))).map (fun e => e.2)

/-- Modelled from the spec: the failure transition of the external query
library for key k — the query's status becomes error with the message,
its accumulated pages stay, no other key's entry is touched, and the
transition issues no fetch (second component: fetches triggered, always
empty — no automatic retry). -/
def failQuery {K P : Type} [DecidableEq K] (k : K) (msg : String)
    (c : QueryStates K P) : QueryStates K P × List K :=
  (c.map (fun e =>
      if e.1 = k then (e.1, QueryEntry.mk e.2.pages (QueryStatus.error msg))
      else e),
    [])

/-- Translated from source (isError render branches): the page shows
`$query.error.message` exactly when the query is in the error status. -/
def renderErrorMessage {P : Type} (q : QueryEntry P) : Option String :=
  match q.status with
  | QueryStatus.error m => some m
  | _ => none

theorem lookupQuery_fail_self {K P : Type} [DecidableEq K]
    (k : K) (msg : String) (c : QueryStates K P) (q : QueryEntry P)
    (h : lookupQuery c k = some q) :
    lookupQuery (failQuery k msg c).1 k
      = some (QueryEntry.mk q.pages (QueryStatus.error msg)) := by
  induction c with
  | nil => simp [lookupQuery, List.find?] at h
  | cons hd tl ih =>
    unfold failQuery at ih ⊢
    rw [List.map_cons]
    by_cases hhd : hd.1 = k
    · rw [if_pos hhd]
      unfold lookupQuery at h ⊢
      rw [List.find?_cons_of_pos] at h
      · rw [List.find?_cons_of_pos]
        · have hq2 : hd.2 = q := by
            simpa using h
          simp [hq2]
        · simp [hhd]
      · simp [hhd]
    · rw [if_neg hhd]
      unfold lookupQuery at h ⊢
      rw [List.find?_cons_of_neg] at h
      · rw [List.find?_cons_of_neg]
        · exact ih h
        · simp [hhd]
      · simp [hhd]

theorem lookupQuery_fail_other {K P : Type} [DecidableEq K]
    (k k2 : K) (msg : String) (c : QueryStates K P) (h : ¬ k2 = k) :
    lookupQuery (failQuery k msg c).1 k2 = lookupQuery c k2 := by
  induction c with
  | nil => rfl
  | cons hd tl ih =>
    unfold failQuery at ih ⊢
    rw [List.map_cons]
    by_cases hhd : hd.1 = k
    · rw [if_pos hhd]
      have hne2 : ¬ hd.1 = k2 := by
        rw [hhd]
        exact fun hh => h hh.symm
      unfold lookupQuery
      rw [List.find?_cons_of_neg, List.find?_cons_of_neg]
      · exact ih
      · simp [hne2]
      · simp [hne2]
    · rw [if_neg hhd]
      by_cases hhd2 : hd.1 = k2
      · unfold lookupQuery
        rw [List.find?_cons_of_pos, List.find?_cons_of_pos] <;> simp [hhd2]
      · unfold lookupQuery
        rw [List.find?_cons_of_neg, List.find?_cons_of_neg]
        · exact ih
        · simp [hhd2]
        · simp [hhd2]

/-- C9: a failed fetch for key k turns that query's status into error with
the message surfaced by the isError render branch, keeps its previously
accumulated pages, leaves every other key's entry unchanged, and issues no
fetch (no automatic retry). -/
theorem failQuery_isolated {K P : Type} [DecidableEq K]
    (c : QueryStates K P) (k k2 : K) (msg : String) (q q2 : QueryEntry P)
    (hne : k2 ≠ k)
    (hq : lookupQuery c k = some q)
    (hq2 : lookupQuery c k2 = some q2) :
    lookupQuery (failQuery k msg c).1 k
      = some (QueryEntry.mk q.pages (QueryStatus.error msg)) ∧
    renderErrorMessage (QueryEntry.mk q.pages (QueryStatus.error msg))
      = some msg ∧
    lookupQuery (failQuery k msg c).1 k2 = some q2 ∧
    (failQuery k msg c).2 = [] := by
  refine ⟨lookupQuery_fail_self k msg c q hq, rfl, ?_, rfl⟩
  rw [lookupQuery_fail_other k k2 msg c hne]
  exact hq2

/-- Witness for C9 on two concrete query keys from the source: the profile
query fails while the author-feed query's entry stays untouched. -/
theorem failQuery_isolated_witness :
    (["authorFeed", "zeu.dev"] ≠ ["profile", "zeu.dev"]) ∧
    lookupQuery
        ([(["profile", "zeu.dev"],
            QueryEntry.mk ([] : List FeedPage) QueryStatus.success),
          (["authorFeed", "zeu.dev"],
            QueryEntry.mk ([] : List FeedPage) QueryStatus.success)] :
          QueryStates (List String) FeedPage)
        ["profile", "zeu.dev"]
      = some (QueryEntry.mk ([] : List FeedPage) QueryStatus.success) ∧
    lookupQuery
        ([(["profile", "zeu.dev"],
            QueryEntry.mk ([] : List FeedPage) QueryStatus.success),
          (["authorFeed", "zeu.dev"],
            QueryEntry.mk ([] : List FeedPage) QueryStatus.success)] :
          QueryStates (List String) FeedPage)
        ["authorFeed", "zeu.dev"]
      = some (QueryEntry.mk ([] : List FeedPage) QueryStatus.success) ∧
    (lookupQuery
        (failQuery ["profile", "zeu.dev"] "boom"
          ([(["profile", "zeu.dev"],
              QueryEntry.mk ([] : List FeedPage) QueryStatus.success),
            (["authorFeed", "zeu.dev"],
              QueryEntry.mk ([] : List FeedPage) QueryStatus.success)] :
            QueryStates (List String) FeedPage)).1
        ["profile", "zeu.dev"]
      = some (QueryEntry.mk ([] : List FeedPage) (QueryStatus.error "boom")) ∧
    renderErrorMessage
        (QueryEntry.mk ([] : List FeedPage) (QueryStatus.error "boom"))
      = some "boom" ∧
    lookupQuery
        (failQuery ["profile", "zeu.dev"] "boom"
          ([(["profile", "zeu.dev"],
              QueryEntry.mk ([] : List FeedPage) QueryStatus.success),
            (["authorFeed", "zeu.dev"],
              QueryEntry.mk ([] : List FeedPage) QueryStatus.success)] :
            QueryStates (List String) FeedPage)).1
        ["authorFeed", "zeu.dev"]
      = some (QueryEntry.mk ([] : List FeedPage) QueryStatus.success) ∧
    (failQuery ["profile", "zeu.dev"] "boom"
        ([(["profile", "zeu.dev"],
            QueryEntry.mk ([] : List FeedPage) QueryStatus.success),
          (["authorFeed", "zeu.dev"],
            QueryEntry.mk ([] : List FeedPage) QueryStatus.success)] :
          QueryStates (List String) FeedPage)).2
      = []) :=
  ⟨by decide, by decide, by decide,
    failQuery_isolated
      ([(["profile", "zeu.dev"],
          QueryEntry.mk ([] : List FeedPage) QueryStatus.success),
        (["authorFeed", "zeu.dev"],
          QueryEntry.mk ([] : List FeedPage) QueryStatus.success)] :
        QueryStates (List String) FeedPage)
      ["profile", "zeu.dev"] ["authorFeed", "zeu.dev"] "boom"
      (QueryEntry.mk ([] : List FeedPage) QueryStatus.success)
      (QueryEntry.mk ([] : List FeedPage) QueryStatus.success)
      (by decide) (by decide) (by decide)⟩

/-- Translated from source (the three profile snippets: search result,
profile detail, post author): the displayed name is rendered as
`displayName || "N/A"`, whose fallback applies when displayName is
undefined or the empty string. -/
def renderedDisplayName (displayName : Option String) : String :=
  match displayName with
  | none => "N/A"
  | some s => if s = "" then "N/A" else s

/-- Translated from source (the same snippets): the handle line is rendered
as `@{handle}`. -/
def renderedHandle (handle : String) : String :=
  "@" ++ handle

/-- C10: a profile whose displayName is absent or empty is displayed as
N/A, any other displayName is displayed unchanged, and the handle is always
displayed with an at-sign in front. -/
theorem profile_display_fallback :
    renderedDisplayName none = "N/A" ∧
    renderedDisplayName (some "") = "N/A" ∧
    (∀ s : String, s ≠ "" → renderedDisplayName (some s) = s) ∧
    (∀ h : String, renderedHandle h = "@" ++ h) := by
  refine ⟨rfl, ?_, ?_, fun h => rfl⟩
  · unfold renderedDisplayName
    dsimp only
    rw [if_pos rfl]
  · intro s hs
    unfold renderedDisplayName
    dsimp only
    rw [if_neg hs]

/-- Witness for C10 at a concrete non-empty display name. -/
theorem profile_display_fallback_witness :
    ("zeu" ≠ "") ∧ renderedDisplayName (some "zeu") = "zeu" :=
  ⟨by decide, profile_display_fallback.2.2.1 "zeu" (by decide)⟩
